import Mathlib

/-
  Verification development for the DocuMinder repository
  (document-expiration tracker with dual backends: local browser storage
  and a remote PocketBase record store).

  Shallow embedding of:
  - DataService  (src/unnamed/part_003; the current version of
    src/src/services/data.service.ts, with runtime-token resolution,
    fetchWithTimeout and the best-effort secondary Observations write)
  - AuthService  (src/src/services/auth.service.ts; restoreSession /
    setInternalState / saveSession / logout / fetchWithTimeout from the
    variant at lines 68-255, loginLocal from the variant at lines 490-501,
    which is the one matching the current login component
    src/src/components/login/login.component.ts: username field and
    "Default is docuser/docuser" hint)

  Effects are made explicit: network I/O is an environment (a list of fetch
  outcomes consumed in order), issued HTTP requests are returned as a trace,
  browser storage is a field of the state, and writes to the `error` signal
  are returned as a chronological trace.
-/

namespace DocuMinder

/-- The app-side document shape (interface DocItem, src/unnamed/part_003 lines 3-11). -/
structure DocItem where
  id : String
  title : String
  details : String
  category : String
  expirationDate : String
  created : String
  notified : Option Bool := none
deriving Repr, DecidableEq

/-- Runtime configuration (interface AppConfig, src/unnamed/part_003 lines 13-17). -/
structure AppConfig where
  usePocketBase : Bool
  pbUrl : String
  pbAuthToken : String
deriving Repr, DecidableEq

/-- The fields of a new document as passed to addDocument
(TypeScript `Omit DocItem id/created`). -/
structure NewDoc where
  title : String
  details : String
  category : String
  expirationDate : String
  notified : Option Bool := none
deriving Repr, DecidableEq

/-- A remote PocketBase record as returned by the Notes list endpoint.
Optional fields model JS fields that may be absent; an empty string models a
present-but-empty (hence JS-falsy) field. -/
structure PBItem where
  id : String
  Note : Option String
  NoteObservation : Option String
  Category : Option String
  expiration_date : Option String
  created : String
deriving Repr, DecidableEq

/-- Parsed JSON body of an HTTP response, restricted to the shapes the code
reads. `jsonText s` is a JSON body whose JSON.stringify rendering is `s`
(used only on the error path of the create call); `noJson` is a body on
which `response.json()` throws. -/
inductive RespBody where
  | itemsBody (items : List PBItem)
  | createdBody (id : Option String)
  | jsonText (s : String)
  | noJson
deriving Repr, DecidableEq

/-- The observable part of a fetch Response. -/
structure HttpResponse where
  ok : Bool
  status : Nat
  statusText : String
  body : RespBody
deriving Repr, DecidableEq

/-- Outcome of one call to fetch: a response, an abort by the timeout
controller (AbortError), or another network failure carrying its message. -/
inductive FetchOutcome where
  | response (r : HttpResponse)
  | abortTimeout
  | netFailure (msg : String)
deriving Repr, DecidableEq

/-- An HTTP request as issued by the services (the parts the spec talks
about: URL, method, and the Authorization header value if set). -/
structure Request where
  url : String
  method : String
  authorization : Option String
deriving Repr, DecidableEq

/-- JS `a || dflt` on an optional string field: absent and empty are falsy. -/
def jsOr (v : Option String) (dflt : String) : String :=
  match v with
  | some s => if s = "" then dflt else s
  | none => dflt

/-- JS String.prototype.toLowerCase, written over the character list so
that it evaluates by kernel reduction. -/
def strToLower (s : String) : String :=
  String.mk (s.data.map Char.toLower)

/-- Content of the localStorage entry documinder_data. -/
inductive StoredDocs where
  | absent
  | corrupt
  | stored (docs : List DocItem)
deriving Repr, DecidableEq

namespace DataService

/-- Timeout for fetch requests, in milliseconds (src/unnamed/part_003 line 42). -/
def FETCH_TIMEOUT : Nat := 10000

/-- fetchWithTimeout (src/unnamed/part_003 lines 50-68): returns the response,
or throws the distinct timeout message on AbortError, or rethrows any other
network error. -/
def fetchWithTimeout (o : FetchOutcome) : Except String HttpResponse :=
  match o with
  | FetchOutcome.response r => Except.ok r
  | FetchOutcome.abortTimeout => Except.error "Request timeout: Server did not respond in time"
  | FetchOutcome.netFailure msg => Except.error msg

/-- State of the DataService: the signals, the runtime (session) token, the
localStorage entry for documents, and whether localStorage writes succeed
(false models the degraded volatile mode of setSafeItem). -/
structure DataState where
  documents : List DocItem
  config : AppConfig
  runtimeToken : String
  isLoading : Bool
  error : Option String
  localData : StoredDocs
  storageWritable : Bool
deriving Repr, DecidableEq

/-- getAuthToken (src/unnamed/part_003 lines 242-244):
`this.runtimeToken() || this.config().pbAuthToken`. -/
def getAuthToken (s : DataState) : String :=
  if s.runtimeToken = "" then s.config.pbAuthToken else s.runtimeToken

/-- Pop the next fetch outcome from the environment; an exhausted
environment behaves as a plain network failure. -/
def takeOutcome : List FetchOutcome → FetchOutcome × List FetchOutcome
  | [] => (FetchOutcome.netFailure "Failed to fetch", [])
  | o :: rest => (o, rest)

/-- Schema mapping of one PocketBase record to the app shape
(src/unnamed/part_003 lines 262-269). -/
def mapPBItem (item : PBItem) : DocItem :=
  { id := item.id
    title := jsOr item.Note "Untitled"
    details := jsOr item.NoteObservation ""
    category := jsOr item.Category "General"
    expirationDate := jsOr item.expiration_date item.created
    created := item.created }

/-- loadFromLocal (src/unnamed/part_003 lines 192-204): read documinder_data;
missing or unparseable data yields the empty list. The result is the new
value of the documents signal. -/
def loadFromLocal : StoredDocs → List DocItem
  | StoredDocs.absent => []
  | StoredDocs.corrupt => []
  | StoredDocs.stored docs => docs

/-- setSafeItem for documinder_data (src/unnamed/part_003 lines 89-95):
persists the list, or silently does nothing when storage is blocked. -/
def setSafeDocs (s : DataState) (docs : List DocItem) : DataState :=
  if s.storageWritable then { s with localData := StoredDocs.stored docs } else s

/-- addToLocal (src/unnamed/part_003 lines 221-231). The generated id and the
current timestamp are inputs (they come from crypto/Date in the source). -/
def addToLocal (s : DataState) (doc : NewDoc) (newId now : String) : DataState :=
  let newDoc : DocItem :=
    { id := newId
      title := doc.title
      details := doc.details
      category := doc.category
      expirationDate := doc.expirationDate
      created := now
      notified := doc.notified }
  let updated := newDoc :: s.documents
  setSafeDocs { s with documents := updated } updated

/-- deleteFromLocal (src/unnamed/part_003 lines 233-237). -/
def deleteFromLocal (s : DataState) (id : String) : DataState :=
  let updated := s.documents.filter (fun d => d.id ≠ id)
  setSafeDocs { s with documents := updated } updated

/-- loadFromPocketBase (src/unnamed/part_003 lines 246-272). Returns the
thrown message or the new documents list (`none` means the guarded early
return when no token is available), together with the issued requests and
the remaining environment. -/
def loadFromPocketBase (s : DataState) (env : List FetchOutcome) :
    Except String (Option (List DocItem)) × List Request × List FetchOutcome :=
  let token := getAuthToken s
  if token = "" then (Except.ok none, [], env)
  else
    let req : Request :=
      { url := s.config.pbUrl ++ "/api/collections/Notes/records?sort=-created"
        method := "GET"
        authorization := some token }
    let (o, env1) := takeOutcome env
    match fetchWithTimeout o with
    | Except.error msg => (Except.error msg, [req], env1)
    | Except.ok resp =>
      if resp.ok then
        match resp.body with
        | RespBody.itemsBody items => (Except.ok (some (items.map mapPBItem)), [req], env1)
        | _ => (Except.error "Cannot read items of the response", [req], env1)
      else (Except.error ("PB Error: " ++ resp.statusText), [req], env1)

/-- addToPocketBase (src/unnamed/part_003 lines 274-341): POST the note; on a
non-ok response throw the stringified JSON error body, or the
status/statusText fallback when the body is not JSON; on success attempt the
secondary Observations POST, whose outcome is only logged, never propagated. -/
def addToPocketBase (s : DataState) (doc : NewDoc) (env : List FetchOutcome) :
    Except String Unit × List Request × List FetchOutcome :=
  let token := getAuthToken s
  let req1 : Request :=
    { url := s.config.pbUrl ++ "/api/collections/Notes/records"
      method := "POST"
      authorization := some token }
  let (o1, env1) := takeOutcome env
  match fetchWithTimeout o1 with
  | Except.error msg => (Except.error msg, [req1], env1)
  | Except.ok resp =>
    if resp.ok then
      match resp.body with
      | RespBody.noJson => (Except.error "Unexpected end of JSON input", [req1], env1)
      | _ =>
        -- newNote parsed; the secondary write is attempted and its outcome
        -- (response, status, or thrown error) is ignored apart from logging
        let req2 : Request :=
          { url := s.config.pbUrl ++ "/api/collections/Observations/records"
            method := "POST"
            authorization := some token }
        let (_, env2) := takeOutcome env1
        (Except.ok (), [req1, req2], env2)
    else
      let msg :=
        match resp.body with
        | RespBody.jsonText s => s
        | RespBody.noJson => "HTTP " ++ toString resp.status ++ ": " ++ resp.statusText
        | _ => "HTTP " ++ toString resp.status ++ ": " ++ resp.statusText
      (Except.error msg, [req1], env1)

/-- deleteFromPocketBase (src/unnamed/part_003 lines 343-355). -/
def deleteFromPocketBase (s : DataState) (id : String) (env : List FetchOutcome) :
    Except String Unit × List Request × List FetchOutcome :=
  let token := getAuthToken s
  let req : Request :=
    { url := s.config.pbUrl ++ "/api/collections/Notes/records/" ++ id
      method := "DELETE"
      authorization := some token }
  let (o, env1) := takeOutcome env
  match fetchWithTimeout o with
  | Except.error msg => (Except.error msg, [req], env1)
  | Except.ok resp =>
    if resp.ok then (Except.ok (), [req], env1)
    else (Except.error "Failed to delete from PB", [req], env1)

/-- Result of one repository operation: the final state, the HTTP requests
issued (in order), the chronological trace of writes to the error signal,
and the unconsumed environment. -/
structure OpResult where
  state : DataState
  requests : List Request
  errorWrites : List (Option String)
  env : List FetchOutcome
deriving Repr, DecidableEq

/-- loadDocuments (src/unnamed/part_003 lines 117-134): set loading, clear
error, dispatch on the backend, on throw store a load-failure message (and
re-set an already empty documents list), always clear loading. -/
def loadDocuments (s : DataState) (env : List FetchOutcome) : OpResult :=
  let s1 : DataState := { s with isLoading := true, error := none }
  if s1.config.usePocketBase then
    match loadFromPocketBase s1 env with
    | (Except.ok none, reqs, env1) =>
      { state := { s1 with isLoading := false }
        requests := reqs, errorWrites := [none], env := env1 }
    | (Except.ok (some docs), reqs, env1) =>
      { state := { s1 with documents := docs, isLoading := false }
        requests := reqs, errorWrites := [none], env := env1 }
    | (Except.error msg, reqs, env1) =>
      let emsg := "Failed to load data: " ++ msg
      let s2 : DataState := { s1 with error := some emsg }
      let s3 : DataState :=
        if s2.documents.length = 0 then { s2 with documents := [] } else s2
      { state := { s3 with isLoading := false }
        requests := reqs, errorWrites := [none, some emsg], env := env1 }
  else
    { state := { s1 with documents := loadFromLocal s1.localData, isLoading := false }
      requests := [], errorWrites := [none], env := env }

/-- addDocument (src/unnamed/part_003 lines 136-151): set loading (error is
NOT cleared here), backend-specific create, then refresh via loadDocuments;
on throw store a save-failure message; always clear loading. -/
def addDocument (s : DataState) (doc : NewDoc) (newId now : String)
    (env : List FetchOutcome) : OpResult :=
  let s1 : DataState := { s with isLoading := true }
  if s1.config.usePocketBase then
    match addToPocketBase s1 doc env with
    | (Except.error msg, reqs, env1) =>
      let emsg := "Failed to save: " ++ msg
      { state := { s1 with error := some emsg, isLoading := false }
        requests := reqs, errorWrites := [some emsg], env := env1 }
    | (Except.ok _, reqs, env1) =>
      let r := loadDocuments s1 env1
      { state := { r.state with isLoading := false }
        requests := reqs ++ r.requests, errorWrites := r.errorWrites, env := r.env }
  else
    let s2 := addToLocal s1 doc newId now
    let r := loadDocuments s2 env
    { state := { r.state with isLoading := false }
      requests := r.requests, errorWrites := r.errorWrites, env := r.env }

/-- deleteDocument (src/unnamed/part_003 lines 153-168): set loading (error
is NOT cleared here), backend-specific delete, then refresh via
loadDocuments; on throw store a delete-failure message; always clear
loading. -/
def deleteDocument (s : DataState) (id : String) (env : List FetchOutcome) : OpResult :=
  let s1 : DataState := { s with isLoading := true }
  if s1.config.usePocketBase then
    match deleteFromPocketBase s1 id env with
    | (Except.error msg, reqs, env1) =>
      let emsg := "Failed to delete: " ++ msg
      { state := { s1 with error := some emsg, isLoading := false }
        requests := reqs, errorWrites := [some emsg], env := env1 }
    | (Except.ok _, reqs, env1) =>
      let r := loadDocuments s1 env1
      { state := { r.state with isLoading := false }
        requests := reqs ++ r.requests, errorWrites := r.errorWrites, env := r.env }
  else
    let s2 := deleteFromLocal s1 id
    let r := loadDocuments s2 env
    { state := { r.state with isLoading := false }
      requests := r.requests, errorWrites := r.errorWrites, env := r.env }

end DataService

/-- Internal identity record (interface UserData, src/src/services/auth.service.ts
lines 72-78). -/
structure UserData where
  username : String
  role : String
  id : String
  email : Option String := none
  name : Option String := none
deriving Repr, DecidableEq

/-- Content of the sessionStorage entry documinder_user: absent, a payload
that fails JSON.parse, or a valid serialized identity. -/
inductive StoredUser where
  | absent
  | corrupt
  | valid (u : UserData)
deriving Repr, DecidableEq

/-- The two sessionStorage entries used by AuthService. -/
structure SessionStorage where
  user : StoredUser
  token : Option String
deriving Repr, DecidableEq

namespace AuthService

/-- Timeout for fetch requests, in milliseconds (auth.service.ts line 92). -/
def FETCH_TIMEOUT : Nat := 10000

/-- fetchWithTimeout (auth.service.ts lines 100-118): identical logic to
DataService.fetchWithTimeout. -/
def fetchWithTimeout (o : FetchOutcome) : Except String HttpResponse :=
  match o with
  | FetchOutcome.response r => Except.ok r
  | FetchOutcome.abortTimeout => Except.error "Request timeout: Server did not respond in time"
  | FetchOutcome.netFailure msg => Except.error msg

/-- State of the AuthService: the signals, the sessionStorage entries, the
trace of tokens pushed to DataService.setRuntimeToken, the trace of issued
HTTP requests, and the last router.navigate target. -/
structure AuthState where
  isLoggedIn : Bool
  currentUser : Option UserData
  isAdmin : Bool
  storage : SessionStorage
  pushedTokens : List String
  requests : List Request
  nav : Option String
deriving Repr, DecidableEq

/-- setInternalState (auth.service.ts lines 222-230): mark logged in, store
the user, derive isAdmin case-insensitively, and push the token to
DataService only when it is non-empty (JS truthiness of `if (token)`). -/
def setInternalState (s : AuthState) (user : UserData) (token : String) : AuthState :=
  let s1 : AuthState :=
    { s with isLoggedIn := true
             currentUser := some user
             isAdmin := strToLower user.role = "admin" }
  if token = "" then s1
  else { s1 with pushedTokens := s1.pushedTokens ++ [token] }

/-- logout (auth.service.ts lines 197-207): reset the signals, push the empty
token to DataService, remove both sessionStorage entries, navigate to the
login view. -/
def logout (s : AuthState) : AuthState :=
  { s with isLoggedIn := false
           currentUser := none
           isAdmin := false
           pushedTokens := s.pushedTokens ++ [""]
           storage := { user := StoredUser.absent, token := none }
           nav := some "/login" }

/-- saveSession (auth.service.ts lines 211-220): set the internal state,
persist the identity, persist the token only when non-empty, navigate to the
dashboard. -/
def saveSession (s : AuthState) (user : UserData) (token : String) : AuthState :=
  let s1 := setInternalState s user token
  let s2 : AuthState :=
    { s1 with storage :=
        { user := StoredUser.valid user
          token := if token = "" then s1.storage.token else some token } }
  { s2 with nav := some "/dashboard" }

/-- restoreSession (auth.service.ts lines 120-132): read the persisted
identity and token; an absent identity leaves the state untouched; a valid
identity goes straight to the internal authenticated state with the stored
token (or the empty string when the token entry is absent); a corrupt
identity triggers logout. No network call is made. -/
def restoreSession (s : AuthState) : AuthState :=
  match s.storage.user with
  | StoredUser.absent => s
  | StoredUser.corrupt => logout s
  | StoredUser.valid u => setInternalState s u (s.storage.token.getD "")

/-- Parsed body of the auth-with-password endpoint: the `record` object (with
optional id and profile fields) and the optional `token`. -/
structure AuthRecord where
  id : Option String
  username : Option String
  name : Option String
  email : Option String
  Role : Option String
  role : Option String
deriving Repr, DecidableEq

/-- loginPocketBase (auth.service.ts lines 144-180): POST to
auth-with-password through fetchWithTimeout; non-ok, unparseable or
id-less responses and thrown errors all yield false without touching the
state; a valid response builds the identity with JS-falsy fallbacks and
calls saveSession. The parsed auth body is an input (`authData`), `none`
modelling a body on which response.json() throws or a missing record. -/
def loginPocketBase (s : AuthState) (identity pass url : String)
    (env : List FetchOutcome)
    (authData : Option (AuthRecord × Option String)) : AuthState × Bool :=
  let req : Request :=
    { url := url ++ "/api/collections/users/auth-with-password"
      method := "POST"
      authorization := none }
  let (o, _) := DataService.takeOutcome env
  let s0 : AuthState := { s with requests := s.requests ++ [req] }
  match fetchWithTimeout o with
  | Except.error _ => (s0, false)
  | Except.ok resp =>
    if resp.ok then
      match authData with
      | none => (s0, false)
      | some (record, token) =>
        match record.id with
        | none => (s0, false)
        | some rid =>
          if rid = "" then (s0, false)
          else
            let userData : UserData :=
              { id := rid
                username := jsOr record.username
                    (jsOr record.name (jsOr record.email "Unknown User"))
                email := some (jsOr record.email "")
                name := some (jsOr record.name "")
                role := jsOr record.Role (jsOr record.role "user") }
            (saveSession s0 userData (jsOr token ""), true)
    else (s0, false)

/-- loginLocal (auth.service.ts lines 490-501, the variant matching the
current login component): the fixed docuser/docuser pair builds the local
admin identity and saves the session with an empty token. -/
def loginLocal (s : AuthState) (user pass : String) : AuthState × Bool :=
  if user = "docuser" ∧ pass = "docuser" then
    let userData : UserData :=
      { id := "local-admin", username := "docuser", role := "admin" }
    (saveSession s userData "", true)
  else (s, false)

/-- login (auth.service.ts lines 134-142 / 452-460): dispatch on the
configured backend. -/
def login (cfg : AppConfig) (s : AuthState) (user pass : String)
    (env : List FetchOutcome)
    (authData : Option (AuthRecord × Option String)) : AuthState × Bool :=
  if cfg.usePocketBase then loginPocketBase s user pass cfg.pbUrl env authData
  else loginLocal s user pass

end AuthService

/-- Classification of a value written to the error signal by a repository
operation: either a clear, or one of the three failure messages the
operations produce (load, save, delete), each carrying the caught message. -/
def failureWrite (e : Option String) : Prop :=
  e = none ∨ ∃ m, e = some ("Failed to load data: " ++ m)
    ∨ e = some ("Failed to save: " ++ m) ∨ e = some ("Failed to delete: " ++ m)

/-- A 200 response whose JSON body is an items list. -/
def okItemsOutcome (items : List PBItem) : FetchOutcome :=
  FetchOutcome.response { ok := true, status := 200, statusText := "OK"
                          body := RespBody.itemsBody items }

/-- A 200 response to a create POST carrying the new record id. -/
def okCreatedOutcome (id : String) : FetchOutcome :=
  FetchOutcome.response { ok := true, status := 200, statusText := "OK"
                          body := RespBody.createdBody (some id) }

/-- A 500 response with a JSON error body. -/
def fail500Outcome : FetchOutcome :=
  FetchOutcome.response { ok := false, status := 500, statusText := "Internal Server Error"
                          body := RespBody.jsonText "schema error" }

/-- Remote configuration with a static fallback token. -/
def exCfgRemote : AppConfig :=
  { usePocketBase := true, pbUrl := "http://127.0.0.1:8090", pbAuthToken := "fallback-tok" }

/-- Remote configuration without a static fallback token. -/
def exCfgRemoteNoFallback : AppConfig :=
  { usePocketBase := true, pbUrl := "http://127.0.0.1:8090", pbAuthToken := "" }

/-- Local-backend configuration. -/
def exCfgLocal : AppConfig :=
  { usePocketBase := false, pbUrl := "http://127.0.0.1:8090", pbAuthToken := "" }

/-- A sample stored document. -/
def exDoc1 : DocItem :=
  { id := "d1", title := "Passport", details := "", category := "General"
    expirationDate := "2027-01-01", created := "2026-01-01" }

/-- A sample new-document input. -/
def exNewDoc : NewDoc :=
  { title := "Visa", details := "tourist", category := "Travel"
    expirationDate := "2026-12-31" }

/-- A remote record with id abc and every optional provider field present. -/
def exItemAbc : PBItem :=
  { id := "abc", Note := some "Visa", NoteObservation := some "tourist"
    Category := some "Travel", expiration_date := some "2026-12-31"
    created := "2026-02-02" }

/-- A remote record with every optional provider field missing. -/
def exItemBare : PBItem :=
  { id := "r2", Note := none, NoteObservation := none, Category := none
    expiration_date := none, created := "2026-03-03" }

/-- Remote-mode state in which both the session token and the static
fallback token are set. -/
def exStateBothTokens : DataService.DataState :=
  { documents := [], config := exCfgRemote, runtimeToken := "session-tok"
    isLoading := false, error := none, localData := StoredDocs.absent
    storageWritable := true }

/-- Remote-mode state with no session token and no fallback token, with a
pre-existing error message and a non-empty loaded document list. -/
def exStateNoTokens : DataService.DataState :=
  { documents := [exDoc1], config := exCfgRemoteNoFallback, runtimeToken := ""
    isLoading := false, error := some "previous error"
    localData := StoredDocs.absent, storageWritable := true }

/-- Local-mode state holding one loaded and persisted document. -/
def exStateLocal : DataService.DataState :=
  { documents := [exDoc1], config := exCfgLocal, runtimeToken := ""
    isLoading := false, error := none
    localData := StoredDocs.stored [exDoc1], storageWritable := true }

/-- A sample persisted identity. -/
def exUser : UserData :=
  { username := "alice", role := "user", id := "u1" }

/-- Fresh anonymous auth state with empty storage. -/
def exAuthInit : AuthService.AuthState :=
  { isLoggedIn := false, currentUser := none, isAdmin := false
    storage := { user := StoredUser.absent, token := none }
    pushedTokens := [], requests := [], nav := none }

/-- Auth state whose storage holds a valid identity and an empty token
entry. -/
def exAuthValidEmptyTok : AuthService.AuthState :=
  { isLoggedIn := false, currentUser := none, isAdmin := false
    storage := { user := StoredUser.valid exUser, token := some "" }
    pushedTokens := [], requests := [], nav := none }

/-- Auth state whose storage holds a valid identity and a non-empty token. -/
def exAuthValidTok : AuthService.AuthState :=
  { isLoggedIn := false, currentUser := none, isAdmin := false
    storage := { user := StoredUser.valid exUser, token := some "stored-tok" }
    pushedTokens := [], requests := [], nav := none }

/-- Auth state whose storage holds a corrupt identity payload. -/
def exAuthCorrupt : AuthService.AuthState :=
  { isLoggedIn := false, currentUser := none, isAdmin := false
    storage := { user := StoredUser.corrupt, token := some "stored-tok" }
    pushedTokens := [], requests := [], nav := none }

end DocuMinder

namespace DocuMinder
namespace DataService

theorem loadDocuments_isLoading (s : DataState) (env : List FetchOutcome) :
    (loadDocuments s env).state.isLoading = false := by
  unfold loadDocuments
  dsimp only
  split
  · split <;> rfl
  · rfl

theorem addDocument_isLoading (s : DataState) (doc : NewDoc) (newId now : String)
    (env : List FetchOutcome) :
    (addDocument s doc newId now env).state.isLoading = false := by
  unfold addDocument
  dsimp only
  split
  · split <;> rfl
  · rfl

theorem deleteDocument_isLoading (s : DataState) (id : String)
    (env : List FetchOutcome) :
    (deleteDocument s id env).state.isLoading = false := by
  unfold deleteDocument
  dsimp only
  split
  · split <;> rfl
  · rfl

theorem loadFromPocketBase_auth (s : DataState) (env : List FetchOutcome) :
    ∀ req ∈ (loadFromPocketBase s env).2.1, req.authorization = some (getAuthToken s) := by
  unfold loadFromPocketBase
  dsimp only
  split
  · intro req hreq; simp at hreq
  · split
    · intro req hreq
      simp at hreq
      subst hreq
      rfl
    · split
      · split
        · intro req hreq
          simp at hreq
          subst hreq
          rfl
        · intro req hreq
          simp at hreq
          subst hreq
          rfl
      · intro req hreq
        simp at hreq
        subst hreq
        rfl

end DataService
end DocuMinder

namespace DocuMinder
namespace DataService

theorem addToPocketBase_auth (s : DataState) (doc : NewDoc) (env : List FetchOutcome) :
    ∀ req ∈ (addToPocketBase s doc env).2.1, req.authorization = some (getAuthToken s) := by
  unfold addToPocketBase
  dsimp only
  split
  · intro req hreq
    simp at hreq
    subst hreq
    rfl
  · split
    · split
      · intro req hreq
        simp at hreq
        subst hreq
        rfl
      · intro req hreq
        simp at hreq
        rcases hreq with h | h <;> (subst h; rfl)
    · intro req hreq
      simp at hreq
      subst hreq
      rfl

theorem deleteFromPocketBase_auth (s : DataState) (id : String) (env : List FetchOutcome) :
    ∀ req ∈ (deleteFromPocketBase s id env).2.1, req.authorization = some (getAuthToken s) := by
  unfold deleteFromPocketBase
  dsimp only
  split
  · intro req hreq
    simp at hreq
    subst hreq
    rfl
  · split
    · intro req hreq
      simp at hreq
      subst hreq
      rfl
    · intro req hreq
      simp at hreq
      subst hreq
      rfl

theorem getAuthToken_setSafeDocs (s : DataState) (docs : List DocItem) :
    getAuthToken (setSafeDocs s docs) = getAuthToken s := by
  unfold setSafeDocs
  split <;> rfl

theorem getAuthToken_addToLocal (s : DataState) (doc : NewDoc) (newId now : String) :
    getAuthToken (addToLocal s doc newId now) = getAuthToken s := by
  unfold addToLocal
  dsimp only
  exact getAuthToken_setSafeDocs _ _

theorem getAuthToken_deleteFromLocal (s : DataState) (id : String) :
    getAuthToken (deleteFromLocal s id) = getAuthToken s := by
  unfold deleteFromLocal
  dsimp only
  exact getAuthToken_setSafeDocs _ _

theorem loadDocuments_auth (s : DataState) (env : List FetchOutcome) :
    ∀ req ∈ (loadDocuments s env).requests, req.authorization = some (getAuthToken s) := by
  unfold loadDocuments
  dsimp only
  split
  case isTrue h =>
    split
    case h_1 reqs env1 heq =>
      intro req hreq
      have := loadFromPocketBase_auth
        { s with isLoading := true, error := none } env req
      rw [heq] at this
      exact this hreq
    case h_2 docs reqs env1 heq =>
      intro req hreq
      have := loadFromPocketBase_auth
        { s with isLoading := true, error := none } env req
      rw [heq] at this
      exact this hreq
    case h_3 msg reqs env1 heq =>
      intro req hreq
      have := loadFromPocketBase_auth
        { s with isLoading := true, error := none } env req
      rw [heq] at this
      exact this hreq
  case isFalse h =>
    intro req hreq
    simp at hreq

end DataService
end DocuMinder

namespace DocuMinder
namespace DataService

theorem addDocument_auth (s : DataState) (doc : NewDoc) (newId now : String)
    (env : List FetchOutcome) :
    ∀ req ∈ (addDocument s doc newId now env).requests,
      req.authorization = some (getAuthToken s) := by
  unfold addDocument
  dsimp only
  split
  case isTrue h =>
    split
    case h_1 msg reqs env1 heq =>
      intro req hreq
      have := addToPocketBase_auth { s with isLoading := true } doc env req
      rw [heq] at this
      exact this hreq
    case h_2 a reqs env1 heq =>
      intro req hreq
      rw [List.mem_append] at hreq
      rcases hreq with hreq | hreq
      · have := addToPocketBase_auth { s with isLoading := true } doc env req
        rw [heq] at this
        exact this hreq
      · exact loadDocuments_auth { s with isLoading := true } env1 req hreq
  case isFalse h =>
    intro req hreq
    have := loadDocuments_auth (addToLocal { s with isLoading := true } doc newId now) env req hreq
    rwa [getAuthToken_addToLocal] at this

theorem deleteDocument_auth (s : DataState) (id : String) (env : List FetchOutcome) :
    ∀ req ∈ (deleteDocument s id env).requests,
      req.authorization = some (getAuthToken s) := by
  unfold deleteDocument
  dsimp only
  split
  case isTrue h =>
    split
    case h_1 msg reqs env1 heq =>
      intro req hreq
      have := deleteFromPocketBase_auth { s with isLoading := true } id env req
      rw [heq] at this
      exact this hreq
    case h_2 a reqs env1 heq =>
      intro req hreq
      rw [List.mem_append] at hreq
      rcases hreq with hreq | hreq
      · have := deleteFromPocketBase_auth { s with isLoading := true } id env req
        rw [heq] at this
        exact this hreq
      · exact loadDocuments_auth { s with isLoading := true } env1 req hreq
  case isFalse h =>
    intro req hreq
    have := loadDocuments_auth (deleteFromLocal { s with isLoading := true } id) env req hreq
    rwa [getAuthToken_deleteFromLocal] at this

end DataService
end DocuMinder

namespace DocuMinder
namespace DataService

theorem loadDocuments_errorWrites_head (s : DataState) (env : List FetchOutcome) :
    (loadDocuments s env).errorWrites.head? = some none := by
  unfold loadDocuments
  dsimp only
  split
  · split <;> rfl
  · rfl

theorem loadDocuments_errorWrites_last (s : DataState) (env : List FetchOutcome) :
    (loadDocuments s env).errorWrites.getLast? = some (loadDocuments s env).state.error := by
  unfold loadDocuments
  dsimp only
  split
  · split
    · rfl
    · rfl
    · split <;> rfl
  · rfl

theorem loadDocuments_errorWrites_failure (s : DataState) (env : List FetchOutcome) :
    ∀ e ∈ (loadDocuments s env).errorWrites, DocuMinder.failureWrite e := by
  unfold loadDocuments
  dsimp only
  split
  · split
    · intro e he
      simp at he
      subst he
      exact Or.inl rfl
    · intro e he
      simp at he
      subst he
      exact Or.inl rfl
    case h_3 msg reqs env1 heq =>
      intro e he
      simp at he
      rcases he with he | he
      · subst he; exact Or.inl rfl
      · subst he
        exact Or.inr ⟨msg, Or.inl rfl⟩
  · intro e he
    simp at he
    subst he
    exact Or.inl rfl

theorem addDocument_errorWrites_last (s : DataState) (doc : NewDoc) (newId now : String)
    (env : List FetchOutcome) :
    (addDocument s doc newId now env).errorWrites.getLast?
      = some (addDocument s doc newId now env).state.error := by
  unfold addDocument
  dsimp only
  split
  · split
    · rfl
    case h_2 a reqs env1 heq =>
      exact loadDocuments_errorWrites_last { s with isLoading := true } env1
  · exact loadDocuments_errorWrites_last
      (addToLocal { s with isLoading := true } doc newId now) env

theorem addDocument_errorWrites_failure (s : DataState) (doc : NewDoc) (newId now : String)
    (env : List FetchOutcome) :
    ∀ e ∈ (addDocument s doc newId now env).errorWrites, DocuMinder.failureWrite e := by
  unfold addDocument
  dsimp only
  split
  · split
    case h_1 msg reqs env1 heq =>
      intro e he
      simp at he
      subst he
      exact Or.inr ⟨msg, Or.inr (Or.inl rfl)⟩
    case h_2 a reqs env1 heq =>
      exact loadDocuments_errorWrites_failure { s with isLoading := true } env1
  · exact loadDocuments_errorWrites_failure
      (addToLocal { s with isLoading := true } doc newId now) env

theorem deleteDocument_errorWrites_last (s : DataState) (id : String)
    (env : List FetchOutcome) :
    (deleteDocument s id env).errorWrites.getLast?
      = some (deleteDocument s id env).state.error := by
  unfold deleteDocument
  dsimp only
  split
  · split
    · rfl
    case h_2 a reqs env1 heq =>
      exact loadDocuments_errorWrites_last { s with isLoading := true } env1
  · exact loadDocuments_errorWrites_last
      (deleteFromLocal { s with isLoading := true } id) env

theorem deleteDocument_errorWrites_failure (s : DataState) (id : String)
    (env : List FetchOutcome) :
    ∀ e ∈ (deleteDocument s id env).errorWrites, DocuMinder.failureWrite e := by
  unfold deleteDocument
  dsimp only
  split
  · split
    case h_1 msg reqs env1 heq =>
      intro e he
      simp at he
      subst he
      exact Or.inr ⟨msg, Or.inr (Or.inr rfl)⟩
    case h_2 a reqs env1 heq =>
      exact loadDocuments_errorWrites_failure { s with isLoading := true } env1
  · exact loadDocuments_errorWrites_failure
      (deleteFromLocal { s with isLoading := true } id) env

end DataService
end DocuMinder

namespace DocuMinder
namespace DataService

theorem addToPocketBase_created (s : DataState) (doc : NewDoc) (id : String)
    (obs : FetchOutcome) (env : List FetchOutcome) :
    addToPocketBase s doc (okCreatedOutcome id :: obs :: env)
      = (Except.ok (),
         [{ url := s.config.pbUrl ++ "/api/collections/Notes/records"
            method := "POST", authorization := some (getAuthToken s) },
          { url := s.config.pbUrl ++ "/api/collections/Observations/records"
            method := "POST", authorization := some (getAuthToken s) }], env) := rfl

theorem loadFromPocketBase_items (s : DataState) (items : List PBItem)
    (env : List FetchOutcome) (htok : getAuthToken s ≠ "") :
    loadFromPocketBase s (okItemsOutcome items :: env)
      = (Except.ok (some (items.map mapPBItem)),
         [{ url := s.config.pbUrl ++ "/api/collections/Notes/records?sort=-created"
            method := "GET", authorization := some (getAuthToken s) }], env) := by
  unfold loadFromPocketBase
  dsimp only
  rw [if_neg htok]
  rfl

theorem loadDocuments_items (s : DataState) (items : List PBItem)
    (env : List FetchOutcome) (husePB : s.config.usePocketBase = true)
    (htok : getAuthToken s ≠ "") :
    loadDocuments s (okItemsOutcome items :: env)
      = { state := { s with documents := items.map mapPBItem
                            isLoading := false, error := none }
          requests := [{ url := s.config.pbUrl ++ "/api/collections/Notes/records?sort=-created"
                         method := "GET", authorization := some (getAuthToken s) }]
          errorWrites := [none], env := env } := by
  unfold loadDocuments
  dsimp only
  rw [husePB, if_pos rfl]
  rw [loadFromPocketBase_items { s with isLoading := true, error := none } items env htok]
  rfl

theorem loadFromPocketBase_fetchError (s : DataState) (o : FetchOutcome) (msg : String)
    (env : List FetchOutcome) (htok : getAuthToken s ≠ "")
    (herr : fetchWithTimeout o = Except.error msg) :
    loadFromPocketBase s (o :: env)
      = (Except.error msg,
         [{ url := s.config.pbUrl ++ "/api/collections/Notes/records?sort=-created"
            method := "GET", authorization := some (getAuthToken s) }], env) := by
  unfold loadFromPocketBase
  dsimp only
  rw [if_neg htok]
  dsimp only [takeOutcome]
  rw [herr]

theorem loadDocuments_fetchError (s : DataState) (o : FetchOutcome) (msg : String)
    (env : List FetchOutcome) (husePB : s.config.usePocketBase = true)
    (htok : getAuthToken s ≠ "")
    (herr : fetchWithTimeout o = Except.error msg) :
    (loadDocuments s (o :: env)).state.error = some ("Failed to load data: " ++ msg) := by
  unfold loadDocuments
  dsimp only
  rw [husePB, if_pos rfl]
  rw [loadFromPocketBase_fetchError { s with isLoading := true, error := none } o msg env htok herr]
  dsimp only
  split <;> rfl

theorem loadDocuments_local (s : DataState) (env : List FetchOutcome)
    (h : s.config.usePocketBase = false) :
    loadDocuments s env
      = { state := { s with documents := loadFromLocal s.localData
                            isLoading := false, error := none }
          requests := [], errorWrites := [none], env := env } := by
  unfold loadDocuments
  dsimp only
  rw [h, if_neg Bool.false_ne_true]

end DataService
end DocuMinder

namespace DocuMinder
namespace DataService

theorem deleteFromLocal_absent (s : DataState) (id : String)
    (hw : s.storageWritable = true)
    (hid : id ∉ s.documents.map DocItem.id) :
    deleteFromLocal s id = { s with localData := StoredDocs.stored s.documents } := by
  unfold deleteFromLocal setSafeDocs
  dsimp only
  have hfilter : s.documents.filter (fun d => d.id ≠ id) = s.documents := by
    apply List.filter_eq_self.mpr
    intro d hd
    have hne : d.id ≠ id := fun hh => hid (hh ▸ List.mem_map_of_mem DocItem.id hd)
    simpa using hne
  rw [hfilter, hw, if_pos rfl]

end DataService
end DocuMinder

namespace DocuMinder

open DataService AuthService

/-- C1: for every remote call issued by loadAll, add or remove, the
Authorization header carries the resolved token, which is the session
(runtime) token whenever that one is non-empty and the static fallback
token of the configuration only when the session token is empty. -/
theorem C1_token_priority :
    (∀ s : DataState, s.runtimeToken ≠ "" → getAuthToken s = s.runtimeToken)
    ∧ (∀ s : DataState, s.runtimeToken = "" → getAuthToken s = s.config.pbAuthToken)
    ∧ (∀ (s : DataState) (env : List FetchOutcome) (req : Request),
        req ∈ (loadDocuments s env).requests → req.authorization = some (getAuthToken s))
    ∧ (∀ (s : DataState) (doc : NewDoc) (newId now : String) (env : List FetchOutcome)
        (req : Request),
        req ∈ (addDocument s doc newId now env).requests
          → req.authorization = some (getAuthToken s))
    ∧ (∀ (s : DataState) (id : String) (env : List FetchOutcome) (req : Request),
        req ∈ (deleteDocument s id env).requests
          → req.authorization = some (getAuthToken s)) := by
  refine ⟨?_, ?_, ?_, ?_, ?_⟩
  · intro s h
    unfold getAuthToken
    rw [if_neg h]
  · intro s h
    unfold getAuthToken
    rw [if_pos h]
  · intro s env req h
    exact loadDocuments_auth s env req h
  · intro s doc newId now env req h
    exact addDocument_auth s doc newId now env req h
  · intro s id env req h
    exact deleteDocument_auth s id env req h

/-- Witness for C1 at a state in which both tokens are set: the GET issued
by loadAll carries the session token, never the fallback. -/
theorem C1_witness :
    exStateBothTokens.runtimeToken ≠ ""
    ∧ getAuthToken exStateBothTokens = "session-tok"
    ∧ ({ url := "http://127.0.0.1:8090/api/collections/Notes/records?sort=-created"
         method := "GET", authorization := some "session-tok" } : Request)
        ∈ (loadDocuments exStateBothTokens [okItemsOutcome []]).requests
    ∧ ({ url := "http://127.0.0.1:8090/api/collections/Notes/records?sort=-created"
         method := "GET", authorization := some "session-tok" } : Request).authorization
        = some (getAuthToken exStateBothTokens) := by
  have hmem : ({ url := "http://127.0.0.1:8090/api/collections/Notes/records?sort=-created"
                 method := "GET", authorization := some "session-tok" } : Request)
      ∈ (loadDocuments exStateBothTokens [okItemsOutcome []]).requests := by decide
  refine ⟨by decide, ?_, hmem, C1_token_priority.2.2.1 exStateBothTokens [okItemsOutcome []] _ hmem⟩
  have := C1_token_priority.1 exStateBothTokens (by decide)
  rw [this]
  rfl

end DocuMinder

namespace DocuMinder

open DataService AuthService

/-- Counterexample to C2 as stated: in remote mode with both tokens empty,
loadAll issues no HTTP call and keeps the documents, but it does NOT leave
`error` unchanged — a pre-existing error message is cleared at the start of
the operation. -/
theorem C2_counterexample :
    (loadDocuments exStateNoTokens []).requests = []
    ∧ (loadDocuments exStateNoTokens []).state.documents = exStateNoTokens.documents
    ∧ exStateNoTokens.error = some "previous error"
    ∧ (loadDocuments exStateNoTokens []).state.error ≠ exStateNoTokens.error := by
  refine ⟨rfl, rfl, rfl, by decide⟩

/-- C2 amended: when the remote backend is selected and both the session
token and the static fallback token are empty, loadAll issues no HTTP call,
leaves `documents` unchanged and raises no error; `error`, however, is not
left unchanged in general — it is cleared to `none` as at the start of every
loadAll. -/
theorem C2_no_token_noop :
    ∀ (s : DataState) (env : List FetchOutcome),
    s.config.usePocketBase = true → s.runtimeToken = "" → s.config.pbAuthToken = "" →
    (loadDocuments s env).requests = []
    ∧ (loadDocuments s env).state.documents = s.documents
    ∧ (loadDocuments s env).state.error = none
    ∧ (loadDocuments s env).state.isLoading = false
    ∧ (loadDocuments s env).env = env := by
  intro s env h1 h2 h3
  have htok : getAuthToken { s with isLoading := true, error := none } = "" := by
    unfold getAuthToken
    dsimp only
    rw [h2, if_pos rfl, h3]
  have hload : loadFromPocketBase { s with isLoading := true, error := none } env
      = (Except.ok none, [], env) := by
    unfold loadFromPocketBase
    dsimp only
    rw [htok, if_pos rfl]
  unfold loadDocuments
  dsimp only
  rw [h1, if_pos rfl, hload]
  exact ⟨rfl, rfl, rfl, rfl, rfl⟩

/-- Witness for the amended C2 at a concrete token-less remote state. -/
theorem C2_witness :
    exStateNoTokens.config.usePocketBase = true
    ∧ (loadDocuments exStateNoTokens []).requests = []
    ∧ (loadDocuments exStateNoTokens []).state.documents = exStateNoTokens.documents
    ∧ (loadDocuments exStateNoTokens []).state.error = none := by
  have h := C2_no_token_noop exStateNoTokens [] rfl rfl rfl
  exact ⟨rfl, h.1, h.2.1, h.2.2.1⟩

end DocuMinder

namespace DocuMinder

open DataService AuthService

/-- Counterexample to C3 as stated: addDocument does not clear `error` at
its start. When the remote create fails, the only write to the error signal
during the whole operation is the failure message — no clearing write
precedes it. -/
theorem C3_counterexample :
    (addDocument exStateBothTokens exNewDoc "nid" "now"
        [FetchOutcome.netFailure "boom"]).errorWrites
      = [some "Failed to save: boom"]
    ∧ (addDocument exStateBothTokens exNewDoc "nid" "now"
        [FetchOutcome.netFailure "boom"]).errorWrites.head? ≠ some none := by
  exact ⟨rfl, by decide⟩

/-- C3 amended: loadAll clears `error` at its start; add and remove do not
touch `error` at their start — it is next written either by the embedded
reload (cleared) after a successful mutation, or by the failure message in
the catch. In every operation the final `error` equals the last write the
operation itself made, and every write is either a clear or one of the
failure messages of this operation, so `error` ends `none` unless the
operation failed and a pre-existing error never survives. -/
theorem C3_error_discipline :
    (∀ (s : DataState) (env : List FetchOutcome),
      (loadDocuments s env).errorWrites.head? = some none)
    ∧ (∀ (s : DataState) (env : List FetchOutcome),
      (loadDocuments s env).errorWrites.getLast? = some (loadDocuments s env).state.error)
    ∧ (∀ (s : DataState) (env : List FetchOutcome) (e : Option String),
      e ∈ (loadDocuments s env).errorWrites → failureWrite e)
    ∧ (∀ (s : DataState) (doc : NewDoc) (newId now : String) (env : List FetchOutcome),
      (addDocument s doc newId now env).errorWrites.getLast?
        = some (addDocument s doc newId now env).state.error)
    ∧ (∀ (s : DataState) (doc : NewDoc) (newId now : String) (env : List FetchOutcome)
        (e : Option String),
      e ∈ (addDocument s doc newId now env).errorWrites → failureWrite e)
    ∧ (∀ (s : DataState) (id : String) (env : List FetchOutcome),
      (deleteDocument s id env).errorWrites.getLast?
        = some (deleteDocument s id env).state.error)
    ∧ (∀ (s : DataState) (id : String) (env : List FetchOutcome) (e : Option String),
      e ∈ (deleteDocument s id env).errorWrites → failureWrite e) := by
  refine ⟨loadDocuments_errorWrites_head, loadDocuments_errorWrites_last, ?_, 
    addDocument_errorWrites_last, ?_, deleteDocument_errorWrites_last, ?_⟩
  · intro s env e he
    exact loadDocuments_errorWrites_failure s env e he
  · intro s doc newId now env e he
    exact addDocument_errorWrites_failure s doc newId now env e he
  · intro s id env e he
    exact deleteDocument_errorWrites_failure s id env e he

/-- Witness for the amended C3: the failing remote add writes exactly its
own failure message, which is also the final error value. -/
theorem C3_witness :
    (some "Failed to save: boom")
      ∈ (addDocument exStateBothTokens exNewDoc "nid" "now"
          [FetchOutcome.netFailure "boom"]).errorWrites
    ∧ failureWrite (some "Failed to save: boom")
    ∧ (loadDocuments exStateLocal []).errorWrites.head? = some none := by
  have hm : (some "Failed to save: boom")
      ∈ (addDocument exStateBothTokens exNewDoc "nid" "now"
          [FetchOutcome.netFailure "boom"]).errorWrites := by decide
  exact ⟨hm,
    C3_error_discipline.2.2.2.2.1 exStateBothTokens exNewDoc "nid" "now"
      [FetchOutcome.netFailure "boom"] _ hm,
    C3_error_discipline.1 exStateLocal []⟩

/-- C7: every repository operation (loadAll, add, remove) ends with
`isLoading` equal to false, whatever the backend, environment and outcome. -/
theorem C7_isLoading_always_cleared :
    (∀ (s : DataState) (env : List FetchOutcome),
      (loadDocuments s env).state.isLoading = false)
    ∧ (∀ (s : DataState) (doc : NewDoc) (newId now : String) (env : List FetchOutcome),
      (addDocument s doc newId now env).state.isLoading = false)
    ∧ (∀ (s : DataState) (id : String) (env : List FetchOutcome),
      (deleteDocument s id env).state.isLoading = false) :=
  ⟨loadDocuments_isLoading, addDocument_isLoading, deleteDocument_isLoading⟩

end DocuMinder

namespace DocuMinder

open DataService AuthService

/-- C4: for a remote add whose primary record-create POST succeeds, the add
operation succeeds (final error is none) regardless of the outcome of the
secondary Observations write, and the subsequent reload shows the items the
server returns — in particular the newly created record. -/
theorem C4_secondary_write_tolerated :
    ∀ (s : DataState) (doc : NewDoc) (newId now : String) (obs : FetchOutcome)
      (items : List PBItem) (it : PBItem) (rest : List FetchOutcome),
    s.config.usePocketBase = true →
    getAuthToken s ≠ "" →
    it ∈ items →
    (addDocument s doc newId now
        (okCreatedOutcome "abc" :: obs :: okItemsOutcome items :: rest)).state.error = none
    ∧ mapPBItem it ∈ (addDocument s doc newId now
        (okCreatedOutcome "abc" :: obs :: okItemsOutcome items :: rest)).state.documents
    ∧ (addDocument s doc newId now
        (okCreatedOutcome "abc" :: obs :: okItemsOutcome items :: rest)).state.isLoading
      = false := by
  intro s doc newId now obs items it rest husePB htok hit
  unfold addDocument
  dsimp only
  rw [husePB, if_pos rfl]
  rw [addToPocketBase_created { s with isLoading := true } doc "abc" obs
    (okItemsOutcome items :: rest)]
  dsimp only
  rw [loadDocuments_items { s with isLoading := true } items rest husePB htok]
  refine ⟨rfl, ?_, rfl⟩
  exact List.mem_map_of_mem mapPBItem hit

/-- Witness for C4: concrete remote add whose secondary POST fails with 500;
the operation still succeeds and the refreshed list contains the new
record. -/
theorem C4_witness :
    exStateBothTokens.config.usePocketBase = true
    ∧ getAuthToken exStateBothTokens ≠ ""
    ∧ exItemAbc ∈ [exItemAbc]
    ∧ (addDocument exStateBothTokens exNewDoc "nid" "now"
        (okCreatedOutcome "abc" :: fail500Outcome :: okItemsOutcome [exItemAbc] :: [])).state.error
      = none
    ∧ mapPBItem exItemAbc ∈ (addDocument exStateBothTokens exNewDoc "nid" "now"
        (okCreatedOutcome "abc" :: fail500Outcome :: okItemsOutcome [exItemAbc] :: [])).state.documents := by
  have h := C4_secondary_write_tolerated exStateBothTokens exNewDoc "nid" "now"
    fail500Outcome [exItemAbc] exItemAbc [] rfl (by decide) (by decide)
  exact ⟨rfl, by decide, by decide, h.1, h.2.1⟩

/-- C8: network calls are bounded by the fixed 10-second timeout constant of
both services; a timeout abort is reported with the distinct request-timeout
message and then follows the same failure path (the thrown error, caught and
stored by the operation envelope) as any other network error. -/
theorem C8_timeout_distinct_same_path :
    DataService.FETCH_TIMEOUT = 10000
    ∧ AuthService.FETCH_TIMEOUT = 10000
    ∧ DataService.fetchWithTimeout FetchOutcome.abortTimeout
        = Except.error "Request timeout: Server did not respond in time"
    ∧ AuthService.fetchWithTimeout FetchOutcome.abortTimeout
        = Except.error "Request timeout: Server did not respond in time"
    ∧ (∀ msg : String,
        DataService.fetchWithTimeout (FetchOutcome.netFailure msg) = Except.error msg)
    ∧ (∀ r : HttpResponse,
        DataService.fetchWithTimeout (FetchOutcome.response r) = Except.ok r)
    ∧ (∀ (s : DataState) (env : List FetchOutcome),
        s.config.usePocketBase = true → getAuthToken s ≠ "" →
        (loadDocuments s (FetchOutcome.abortTimeout :: env)).state.error
          = some "Failed to load data: Request timeout: Server did not respond in time"
        ∧ (loadDocuments s (FetchOutcome.netFailure "Failed to fetch" :: env)).state.error
          = some "Failed to load data: Failed to fetch") := by
  refine ⟨rfl, rfl, rfl, rfl, fun msg => rfl, fun r => rfl, ?_⟩
  intro s env husePB htok
  exact ⟨loadDocuments_fetchError s FetchOutcome.abortTimeout
      "Request timeout: Server did not respond in time" env husePB htok rfl,
    loadDocuments_fetchError s (FetchOutcome.netFailure "Failed to fetch")
      "Failed to fetch" env husePB htok rfl⟩

/-- Witness for C8 at a concrete remote state: a timed-out load stores the
distinct timeout message, a plain network failure stores its own message. -/
theorem C8_witness :
    exStateBothTokens.config.usePocketBase = true
    ∧ getAuthToken exStateBothTokens ≠ ""
    ∧ (loadDocuments exStateBothTokens [FetchOutcome.abortTimeout]).state.error
        = some "Failed to load data: Request timeout: Server did not respond in time"
    ∧ (loadDocuments exStateBothTokens [FetchOutcome.netFailure "Failed to fetch"]).state.error
        = some "Failed to load data: Failed to fetch" := by
  have h := C8_timeout_distinct_same_path.2.2.2.2.2.2 exStateBothTokens [] rfl (by decide)
  exact ⟨rfl, by decide, h.1, h.2⟩

end DocuMinder

namespace DocuMinder

open DataService AuthService

/-- C9: the remote-to-internal mapping substitutes defaults for missing
provider fields — missing Note gives title Untitled, missing Category gives
General, missing NoteObservation gives empty details, missing
expiration_date falls back to the created timestamp of the record — and a
successful remote read maps every returned record through exactly this
mapping. -/
theorem C9_mapping_defaults :
    (∀ it : PBItem, it.Note = none → (mapPBItem it).title = "Untitled")
    ∧ (∀ it : PBItem, it.Category = none → (mapPBItem it).category = "General")
    ∧ (∀ it : PBItem, it.NoteObservation = none → (mapPBItem it).details = "")
    ∧ (∀ it : PBItem, it.expiration_date = none → (mapPBItem it).expirationDate = it.created)
    ∧ (∀ (s : DataState) (items : List PBItem) (env : List FetchOutcome),
        s.config.usePocketBase = true → getAuthToken s ≠ "" →
        (loadDocuments s (okItemsOutcome items :: env)).state.documents
          = items.map mapPBItem) := by
  refine ⟨?_, ?_, ?_, ?_, ?_⟩
  · intro it h
    unfold mapPBItem jsOr
    rw [h]
  · intro it h
    unfold mapPBItem jsOr
    rw [h]
  · intro it h
    unfold mapPBItem jsOr
    rw [h]
  · intro it h
    unfold mapPBItem jsOr
    rw [h]
  · intro s items env husePB htok
    rw [loadDocuments_items s items env husePB htok]

/-- Witness for C9 at a record with all optional provider fields missing,
loaded through a successful remote read. -/
theorem C9_witness :
    exItemBare.Note = none
    ∧ (mapPBItem exItemBare).title = "Untitled"
    ∧ (mapPBItem exItemBare).category = "General"
    ∧ (mapPBItem exItemBare).details = ""
    ∧ (mapPBItem exItemBare).expirationDate = exItemBare.created
    ∧ (loadDocuments exStateBothTokens [okItemsOutcome [exItemBare]]).state.documents
        = [mapPBItem exItemBare] := by
  refine ⟨rfl, C9_mapping_defaults.1 exItemBare rfl,
    C9_mapping_defaults.2.1 exItemBare rfl,
    C9_mapping_defaults.2.2.1 exItemBare rfl,
    C9_mapping_defaults.2.2.2.1 exItemBare rfl, ?_⟩
  exact C9_mapping_defaults.2.2.2.2 exStateBothTokens [exItemBare] [] rfl (by decide)

/-- C10: with the local backend selected (and working storage), deleting an
id that is not in the current document set completes without setting an
error and leaves the document set unchanged — same records, same order —
after the delete and the reload it triggers. -/
theorem C10_delete_absent_id :
    ∀ (s : DataState) (id : String) (env : List FetchOutcome),
    s.config.usePocketBase = false →
    s.storageWritable = true →
    id ∉ s.documents.map DocItem.id →
    (deleteDocument s id env).state.documents = s.documents
    ∧ (deleteDocument s id env).state.error = none
    ∧ (deleteDocument s id env).state.isLoading = false := by
  intro s id env husePB hw hid
  unfold deleteDocument
  dsimp only
  rw [husePB, if_neg Bool.false_ne_true]
  rw [deleteFromLocal_absent { s with isLoading := true } id hw hid]
  rw [loadDocuments_local { s with isLoading := true, localData := StoredDocs.stored s.documents }
    env husePB]
  exact ⟨rfl, rfl, rfl⟩

/-- Witness for C10: deleting a missing id from a concrete local state with
one stored document. -/
theorem C10_witness :
    exStateLocal.config.usePocketBase = false
    ∧ ("zzz" : String) ∉ exStateLocal.documents.map DocItem.id
    ∧ (deleteDocument exStateLocal "zzz" []).state.documents = exStateLocal.documents
    ∧ (deleteDocument exStateLocal "zzz" []).state.error = none := by
  have h := C10_delete_absent_id exStateLocal "zzz" [] rfl rfl (by decide)
  exact ⟨rfl, by decide, h.1, h.2.1⟩

end DocuMinder

namespace DocuMinder

open DataService AuthService

/-- C5: with the local backend selected, login with identifier docuser and
secret docuser succeeds — the session is authenticated, isAdmin is true,
and a navigation signal to the dashboard is issued. -/
theorem C5_local_login_docuser :
    ∀ (cfg : AppConfig) (s : AuthService.AuthState) (env : List FetchOutcome)
      (authData : Option (AuthService.AuthRecord × Option String)),
    cfg.usePocketBase = false →
    (AuthService.login cfg s "docuser" "docuser" env authData).2 = true
    ∧ (AuthService.login cfg s "docuser" "docuser" env authData).1.isLoggedIn = true
    ∧ (AuthService.login cfg s "docuser" "docuser" env authData).1.isAdmin = true
    ∧ (AuthService.login cfg s "docuser" "docuser" env authData).1.nav = some "/dashboard" := by
  intro cfg s env authData h
  unfold AuthService.login
  rw [h, if_neg Bool.false_ne_true]
  unfold AuthService.loginLocal
  rw [if_pos ⟨rfl, rfl⟩]
  unfold AuthService.saveSession AuthService.setInternalState
  dsimp only
  rw [if_pos rfl]
  refine ⟨rfl, rfl, ?_, rfl⟩
  show decide (strToLower "admin" = "admin") = true
  decide

/-- Witness for C5 at the default local configuration and a fresh anonymous
auth state. -/
theorem C5_witness :
    exCfgLocal.usePocketBase = false
    ∧ (AuthService.login exCfgLocal exAuthInit "docuser" "docuser" [] none).2 = true
    ∧ (AuthService.login exCfgLocal exAuthInit "docuser" "docuser" [] none).1.isAdmin = true
    ∧ (AuthService.login exCfgLocal exAuthInit "docuser" "docuser" [] none).1.nav
        = some "/dashboard" := by
  have h := C5_local_login_docuser exCfgLocal exAuthInit [] none rfl
  exact ⟨rfl, h.1, h.2.2.1, h.2.2.2⟩

end DocuMinder

namespace DocuMinder

open DataService AuthService

/-- Counterexample to C6 as stated: with a valid persisted identity and an
empty stored token, restore() does NOT push the token to the
DocumentRepository — setInternalState only forwards non-empty tokens — so
the claim that every stored token value, including the empty one, is pushed
is false. -/
theorem C6_counterexample :
    exAuthValidEmptyTok.storage.user = StoredUser.valid exUser
    ∧ (AuthService.restoreSession exAuthValidEmptyTok).isLoggedIn = true
    ∧ (AuthService.restoreSession exAuthValidEmptyTok).pushedTokens
        ≠ exAuthValidEmptyTok.pushedTokens
          ++ [exAuthValidEmptyTok.storage.token.getD ""] := by
  exact ⟨rfl, rfl, by decide⟩

/-- C6 amended: if the persisted identity parses, restore() transitions the
session directly to Authenticated without contacting the backend and pushes
the stored token to the DocumentRepository exactly when it is non-empty (an
empty or absent token is not pushed); if parsing fails, the session becomes
Anonymous and both storage entries are cleared, with no error thrown. -/
theorem C6_restore_behavior :
    ∀ (s : AuthService.AuthState) (u : UserData),
    (s.storage.user = StoredUser.valid u →
      (AuthService.restoreSession s).isLoggedIn = true
      ∧ (AuthService.restoreSession s).currentUser = some u
      ∧ (AuthService.restoreSession s).requests = s.requests
      ∧ (s.storage.token.getD "" ≠ "" →
          (AuthService.restoreSession s).pushedTokens
            = s.pushedTokens ++ [s.storage.token.getD ""])
      ∧ (s.storage.token.getD "" = "" →
          (AuthService.restoreSession s).pushedTokens = s.pushedTokens))
    ∧ (s.storage.user = StoredUser.corrupt →
      (AuthService.restoreSession s).isLoggedIn = false
      ∧ (AuthService.restoreSession s).currentUser = none
      ∧ (AuthService.restoreSession s).isAdmin = false
      ∧ (AuthService.restoreSession s).storage.user = StoredUser.absent
      ∧ (AuthService.restoreSession s).storage.token = none
      ∧ (AuthService.restoreSession s).requests = s.requests) := by
  intro s u
  constructor
  · intro h
    unfold AuthService.restoreSession
    rw [h]
    unfold AuthService.setInternalState
    dsimp only
    by_cases htok : s.storage.token.getD "" = ""
    · rw [if_pos htok]
      exact ⟨rfl, rfl, rfl, fun hcon => absurd htok hcon, fun _ => rfl⟩
    · rw [if_neg htok]
      exact ⟨rfl, rfl, rfl, fun _ => rfl, fun hcon => absurd hcon htok⟩
  · intro h
    unfold AuthService.restoreSession
    rw [h]
    exact ⟨rfl, rfl, rfl, rfl, rfl, rfl⟩

/-- Witness for the amended C6: a valid identity with a non-empty stored
token restores to an authenticated session pushing that token; a corrupt
identity restores to a cleared anonymous session. -/
theorem C6_witness :
    exAuthValidTok.storage.user = StoredUser.valid exUser
    ∧ (AuthService.restoreSession exAuthValidTok).isLoggedIn = true
    ∧ (AuthService.restoreSession exAuthValidTok).pushedTokens = ["stored-tok"]
    ∧ exAuthCorrupt.storage.user = StoredUser.corrupt
    ∧ (AuthService.restoreSession exAuthCorrupt).isLoggedIn = false
    ∧ (AuthService.restoreSession exAuthCorrupt).storage.user = StoredUser.absent := by
  have h1 := (C6_restore_behavior exAuthValidTok exUser).1 rfl
  have h2 := (C6_restore_behavior exAuthCorrupt exUser).2 rfl
  refine ⟨rfl, h1.1, ?_, rfl, h2.1, h2.2.2.2.1⟩
  have := h1.2.2.2.1 (by decide)
  simpa using this

end DocuMinder
